import Mathlib

/-
Verification development for the drone_picbreeder repository.

The frontend (frontend/app.js) is embedded directly from the JavaScript
source.  The evolutionary backend (CPPN genomes, population manager and
session store) is not part of the shipped sources, so it is modelled from
the specification where a claim needs it; such definitions carry a doc
comment that begins with the words Modelled from the spec.
-/

/-! Definitions: constants and JavaScript arithmetic from frontend/app.js. -/

/-- Frames per second of the playback loop (frontend/app.js). -/
def FPS : ℕ := 25

/-- Frame interval in milliseconds: 1000 / FPS (frontend/app.js). -/
def FRAME_DURATION : ℚ := 1000 / (FPS : ℚ)

/-- ECMAScript ToInt32: wrap an integer into the signed 32-bit range. -/
def jsToInt32 (n : ℤ) : ℤ := (n + 2 ^ 31) % 2 ^ 32 - 2 ^ 31

/-- JavaScript left shift: the operand and the result wrap to Int32. -/
def jsShl (a : ℤ) (k : ℕ) : ℤ := jsToInt32 (jsToInt32 a * 2 ^ k)

/-- JavaScript bitwise or: operands wrap to Int32, bitwise or on the
two-complement values, result wrapped to Int32. -/
def jsOr (a b : ℤ) : ℤ := jsToInt32 (Int.lor (jsToInt32 a) (jsToInt32 b))

/-- rgbToHex from frontend/app.js: `(r << 16) | (g << 8) | b`. -/
def rgbToHex (r g b : ℤ) : ℤ := jsOr (jsOr (jsShl r 16) (jsShl g 8)) b

/-- Playback frame index computed at an animation tick (frontend/app.js):
floor of the elapsed milliseconds divided by FRAME_DURATION, wrapped
modulo the number of frames. -/
def currentFrameIndex (elapsed numFrames : ℕ) : ℕ :=
  Nat.floor ((elapsed : ℚ) / FRAME_DURATION) % numFrames

/-! Definitions: renderer state per drone (frontend/app.js). -/

/-- One drone record of an animation frame: the position fields are
required, the color channels are optional per drone. -/
structure DroneRecord where
  x : ℚ
  y : ℚ
  z : ℚ
  r : Option ℤ
  g : Option ℤ
  b : Option ℤ

/-- Math.floor of 0.7 times a color channel, used for the emissive color
in frontend/app.js. -/
def dim07 (n : ℤ) : ℤ := Int.floor ((n : ℚ) * (7 / 10))

/-- The renderer state the code mutates per drone: the three arguments of
position.set plus the material color and emissive hex values. -/
structure DroneMesh where
  posX : ℚ
  posY : ℚ
  posZ : ℚ
  color : ℤ
  emissive : ℤ

/-- Initial drone placement of the grid scene (createScene in
frontend/app.js): absent color channels default to r=127, g=255, b=127;
the mesh position is set to (x, z, y). -/
def createSceneInitMesh (d : DroneRecord) : DroneMesh :=
  let r := d.r.getD 127
  let g := d.g.getD 255
  let b := d.b.getD 127
  { posX := d.x, posY := d.z, posZ := d.y
    color := rgbToHex r g b
    emissive := rgbToHex (dim07 r) (dim07 g) (dim07 b) }

/-- Per-frame update of the grid scene (the animate loop of createScene in
frontend/app.js): position is always set to (x, z, y); color and emissive
are updated only when all of r, g, b are present. -/
def createSceneUpdateMesh (m : DroneMesh) (d : DroneRecord) : DroneMesh :=
  let m1 := { m with posX := d.x, posY := d.z, posZ := d.y }
  match d.r, d.g, d.b with
  | some r, some g, some b =>
      { m1 with
        color := rgbToHex r g b
        emissive := rgbToHex (dim07 r) (dim07 g) (dim07 b) }
  | _, _, _ => m1

/-- Initial drone placement of the modal scene (loadModalAnimation in
frontend/app.js): absent color channels default to r=127, g=127, b=255;
the mesh position is set to (x, z, y). -/
def loadModalInitMesh (d : DroneRecord) : DroneMesh :=
  let r := d.r.getD 127
  let g := d.g.getD 127
  let b := d.b.getD 255
  { posX := d.x, posY := d.z, posZ := d.y
    color := rgbToHex r g b
    emissive := rgbToHex (dim07 r) (dim07 g) (dim07 b) }

/-- Per-frame update of the modal scene (the animate loop of
loadModalAnimation in frontend/app.js); identical logic to the grid scene
update. -/
def loadModalUpdateMesh (m : DroneMesh) (d : DroneRecord) : DroneMesh :=
  let m1 := { m with posX := d.x, posY := d.z, posZ := d.y }
  match d.r, d.g, d.b with
  | some r, some g, some b =>
      { m1 with
        color := rgbToHex r g b
        emissive := rgbToHex (dim07 r) (dim07 g) (dim07 b) }
  | _, _, _ => m1

/-! Definitions: client API helpers (frontend/app.js). -/

/-- An HTTP response as the frontend sees it: the ok flag, the numeric
status, and the decoded JSON payload. -/
structure Response (α : Type) where
  ok : Bool
  status : ℕ
  payload : α

/-- The errors thrown by the API helpers in frontend/app.js. -/
inductive ApiError where
  | sessionNotInitialized
  | requestFailed (status : ℕ)
  | fitnessFailed (genomeId : ℕ)
  | evolveFailed
deriving DecidableEq

/-- The fields of the initialize-endpoint payload that the client reads. -/
structure InitData where
  session_id : String
  generation : ℕ

/-- initializeEvolution from frontend/app.js: issues the create-session
request and stores data.session_id unconditionally; the response ok flag
and status are never inspected and the previously held session id is
overwritten. -/
def initializeEvolution (resp : Response InitData) (_prevSessionId : Option String) :
    Option String × InitData :=
  (some resp.payload.session_id, resp.payload)

/-- getGenomes from frontend/app.js: throws before any request when no
session id is held; otherwise issues exactly one request and throws on a
non-ok response.  The first component counts the requests issued. -/
def getGenomes (sessionId : Option String) (resp : Response α) :
    ℕ × Except ApiError α :=
  match sessionId with
  | none => (0, Except.error ApiError.sessionNotInitialized)
  | some _ =>
      (1, if resp.ok then Except.ok resp.payload
          else Except.error (ApiError.requestFailed resp.status))

/-- getPattern from frontend/app.js, for a genome id and a duration. -/
def getPattern (sessionId : Option String) (_genomeId : ℕ) (_duration : ℚ)
    (resp : Response α) : ℕ × Except ApiError α :=
  match sessionId with
  | none => (0, Except.error ApiError.sessionNotInitialized)
  | some _ =>
      (1, if resp.ok then Except.ok resp.payload
          else Except.error (ApiError.requestFailed resp.status))

/-- assignFitness from frontend/app.js: its thrown error names the genome
id rather than the response status. -/
def assignFitness (sessionId : Option String) (genomeId : ℕ) (_fitness : ℚ)
    (resp : Response α) : ℕ × Except ApiError α :=
  match sessionId with
  | none => (0, Except.error ApiError.sessionNotInitialized)
  | some _ =>
      (1, if resp.ok then Except.ok resp.payload
          else Except.error (ApiError.fitnessFailed genomeId))

/-- evolveGeneration from frontend/app.js: posts default_fitness 0.0 and
throws a fixed error on a non-ok response. -/
def evolveGeneration (sessionId : Option String) (resp : Response α) :
    ℕ × Except ApiError α :=
  match sessionId with
  | none => (0, Except.error ApiError.sessionNotInitialized)
  | some _ =>
      (1, if resp.ok then Except.ok resp.payload
          else Except.error ApiError.evolveFailed)

/-- getCPPNStructure from frontend/app.js. -/
def getCPPNStructure (sessionId : Option String) (_genomeId : ℕ)
    (resp : Response α) : ℕ × Except ApiError α :=
  match sessionId with
  | none => (0, Except.error ApiError.sessionNotInitialized)
  | some _ =>
      (1, if resp.ok then Except.ok resp.payload
          else Except.error (ApiError.requestFailed resp.status))

/-- getEvolutionHistory from frontend/app.js. -/
def getEvolutionHistory (sessionId : Option String) (resp : Response α) :
    ℕ × Except ApiError α :=
  match sessionId with
  | none => (0, Except.error ApiError.sessionNotInitialized)
  | some _ =>
      (1, if resp.ok then Except.ok resp.payload
          else Except.error (ApiError.requestFailed resp.status))

/-- checkConstraints from frontend/app.js. -/
def checkConstraints (sessionId : Option String) (resp : Response α) :
    ℕ × Except ApiError α :=
  match sessionId with
  | none => (0, Except.error ApiError.sessionNotInitialized)
  | some _ =>
      (1, if resp.ok then Except.ok resp.payload
          else Except.error (ApiError.requestFailed resp.status))

/-! Definitions: the evolve click handler and the grid selection state
(frontend/app.js). -/

/-- One API request issued by the evolve handler. -/
inductive EvolveStep where
  | fitness (genomeId : ℕ) (value : ℚ)
  | evolveCall (defaultFitness : ℚ)
deriving DecidableEq

/-- The sequence of API requests the evolve handler issues
(frontend/app.js): one assignFitness per genome id of the current
generation, with fitness 1.0 when the corresponding grid index is in the
selected set and 0.0 otherwise, followed by a single evolve request with
default_fitness 0.0. -/
def evolveRequests (genomeIds : List ℕ) (selectedIndices : Finset ℕ) :
    List EvolveStep :=
  genomeIds.mapIdx (fun index genomeId =>
      EvolveStep.fitness genomeId (if index ∈ selectedIndices then 1 else 0))
    ++ [EvolveStep.evolveCall 0]

/-- The grid selection state plus the disabled flag of the evolve button. -/
structure UIState where
  selectedIndices : Finset ℕ
  evolveDisabled : Bool
deriving DecidableEq

/-- updateEvolveButton from frontend/app.js: the evolve button is disabled
exactly when the selected set is empty. -/
def updateEvolveButton (st : UIState) : UIState :=
  { st with evolveDisabled := decide (st.selectedIndices.card = 0) }

/-- toggleSelection from frontend/app.js: removes the index when selected,
inserts it otherwise, then refreshes the evolve button. -/
def toggleSelection (index : ℕ) (st : UIState) : UIState :=
  let st1 :=
    if index ∈ st.selectedIndices then
      { st with selectedIndices := st.selectedIndices.erase index }
    else
      { st with selectedIndices := insert index st.selectedIndices }
  updateEvolveButton st1

/-- The evolve click handler of frontend/app.js, abstracted over whether
the fitness-assignment and evolve round trip succeeds: the button is
disabled while the call runs; on success the selection is cleared; the
finally block always re-runs updateEvolveButton. -/
def evolveClick (success : Bool) (st : UIState) : UIState :=
  let busy := { st with evolveDisabled := true }
  let after := if success then { busy with selectedIndices := ∅ } else busy
  updateEvolveButton after

/-! Definitions: the evolutionary backend, modelled from the spec. -/

/-- Node kind of a CPPN node (spec section 3). -/
inductive NodeType where
  | input
  | hidden
  | output
deriving DecidableEq, BEq

/-- The fixed, small activation set of the CPPN (spec section 4.1). -/
inductive Activation where
  | identity
  | sine
  | gaussian
  | sigmoid
  | absval
deriving DecidableEq, BEq

/-- A CPPN node (spec section 3). -/
structure Node where
  id : ℕ
  type : NodeType
  activation : Activation
  bias : ℚ
deriving DecidableEq

/-- A CPPN connection gene (spec section 3). -/
structure Connection where
  innovation_id : ℕ
  source : ℕ
  target : ℕ
  weight : ℚ
  enabled : Bool
deriving DecidableEq

/-- A genome: one CPPN plus evolutionary metadata (spec section 3). -/
structure Genome where
  id : ℕ
  nodes : List Node
  connections : List Connection
  parent1 : Option ℕ
  parent2 : Option ℕ
  fitness : Option ℚ
deriving DecidableEq

/-- One genome entry of a Generation Record (spec section 3). -/
structure HistoryEntry where
  genome_id : ℕ
  parent1 : Option ℕ
  parent2 : Option ℕ
  fitness : Option ℚ
deriving DecidableEq

/-- A Generation Record of the history (spec section 3). -/
structure GenerationRecord where
  generation : ℕ
  genomes : List HistoryEntry
deriving DecidableEq

/-- A session: population, generation counter, append-only history,
innovation registry and the session-local id counters (spec section 3). -/
structure Session where
  num_drones : ℕ
  population : List Genome
  generation : ℕ
  history : List GenerationRecord
  innovation_registry : List ((ℕ × ℕ) × ℕ)
  next_node_id : ℕ
  next_innovation_id : ℕ
  next_genome_id : ℕ

/-- Value lookup in the association list of already computed node values;
a node with no computed value contributes 0, so a node with no enabled
incoming connection evaluates to its bias-only value (spec section 4.1). -/
def lookupValue (vals : List (ℕ × ℚ)) (nodeId : ℕ) : ℚ :=
  match vals.find? (fun p => p.1 == nodeId) with
  | some p => p.2
  | none => 0

/-- Weighted sum over the enabled incoming connections of a node
(spec section 4.1); disabled connections are skipped. -/
def incomingSum (conns : List Connection) (vals : List (ℕ × ℚ)) (nodeId : ℕ) : ℚ :=
  (conns.filter (fun c => c.enabled && c.target == nodeId)).foldl
    (fun acc c => acc + c.weight * lookupValue vals c.source) 0

/-- Value of a non-input node: activation(bias + weighted incoming sum)
(spec section 4.1). -/
def nodeValue (act : Activation → ℚ → ℚ) (conns : List Connection)
    (vals : List (ℕ × ℚ)) (n : Node) : ℚ :=
  act n.activation (n.bias + incomingSum conns vals n.id)

/-- A node is ready for the topological order when every enabled incoming
connection comes from an already processed node. -/
def readyNode (conns : List Connection) (done : List ℕ) (n : Node) : Bool :=
  (conns.filter (fun c => c.enabled && c.target == n.id)).all
    (fun c => done.contains c.source)

/-- Modelled from the spec: the topological sort of the CPPN DAG used by
the evaluator (spec section 4.1), which is not under src/.  Fueled Kahn
iteration: repeatedly take the first pending node whose enabled incoming
connections all come from processed nodes; on a cycle (excluded by the
DAG invariant) the remaining nodes are dropped. -/
def topoOrder : ℕ → List Connection → List ℕ → List Node → List Node
  | 0, _, _, _ => []
  | Nat.succ fuel, conns, done, pending =>
    match pending.find? (readyNode conns done) with
    | none => []
    | some n =>
        n :: topoOrder fuel conns (n.id :: done)
          (pending.eraseP (fun m => m.id == n.id))

/-- Color channel clamping to the integer range [0, 255]
(spec section 4.1). -/
def clampColor (q : ℚ) : ℤ := min 255 (max 0 (Int.floor q))

/-- Modelled from the spec: the backend CPPN evaluator
evaluate(genome, x, y, z) (spec section 4.1), which is not under src/.
The input vector is (x, y, z, d) with d the norm of (x, y, z); nodes are
processed in a topological order of the DAG restricted to enabled
connections; every node computes activation(bias + weighted incoming
sum); the three color outputs are clamped to [0, 255].  The activation
functions and the square root are fixed pure functions; since sine,
gaussian and sigmoid are transcendental they are passed as the explicit
parameters act and sqrt, so every statement below holds for every pure
interpretation of them. -/
def evaluate (act : Activation → ℚ → ℚ) (sqrt : ℚ → ℚ) (g : Genome)
    (x y z : ℚ) : ℚ × ℚ × ℚ × ℤ × ℤ × ℤ :=
  let d := sqrt (x * x + y * y + z * z)
  let inputs := g.nodes.filter (fun n => n.type == NodeType.input)
  let inVals := List.zip (inputs.map (fun n => n.id)) [x, y, z, d]
  let nonInputs := g.nodes.filter (fun n => !(n.type == NodeType.input))
  let order := topoOrder nonInputs.length g.connections
    (inVals.map (fun p => p.1)) nonInputs
  let vals := order.foldl
    (fun vs n => (n.id, nodeValue act g.connections vs n) :: vs) inVals
  let outputs := g.nodes.filter (fun n => n.type == NodeType.output)
  let outVal := fun (i : ℕ) =>
    match outputs[i]? with
    | some n => lookupValue vals n.id
    | none => 0
  (outVal 0, outVal 1, outVal 2,
    clampColor (outVal 3), clampColor (outVal 4), clampColor (outVal 5))

/-- Modelled from the spec: the fittest genome of a population
(spec section 4.4 guarantees one parent of each child has maximal
fitness); ties break to the earliest genome; missing fitness counts 0. -/
def bestGenome (pop : List Genome) : Option Genome :=
  pop.foldl
    (fun acc g =>
      match acc with
      | none => some g
      | some b => if g.fitness.getD 0 > b.fitness.getD 0 then some g else some b)
    none

/-- Modelled from the spec: NEAT crossover (spec section 4.3), which is
not under src/.  Connections are aligned by innovation id: for a matching
id one parent weight is chosen by a rand coin flip; ids present in only
one parent are inherited from the fitter parent (ties break to the first
parent); when either parent has the connection disabled the child copy is
disabled with a configured probability driven by rand; the child node set
is the union of the nodes referenced by the inherited connections. -/
def crossover (rand : ℕ → ℕ) (childId : ℕ) (p1 p2 : Genome) : Genome :=
  let fitter := if p2.fitness.getD 0 > p1.fitness.getD 0 then p2 else p1
  let other := if p2.fitness.getD 0 > p1.fitness.getD 0 then p1 else p2
  let inherited := fitter.connections.mapIdx (fun i c =>
    match other.connections.find? (fun c2 => c2.innovation_id == c.innovation_id) with
    | some c2 =>
        let chosen := if rand (2 * i) % 2 == 0 then c else c2
        let disableIt := (!c.enabled || !c2.enabled) && (rand (2 * i + 1) % 4 < 3)
        { chosen with enabled := !disableIt }
    | none => c)
  let refIds := inherited.foldl (fun acc c => c.source :: c.target :: acc) []
  let childNodes := (fitter.nodes ++ other.nodes).foldl
    (fun acc n =>
      if acc.any (fun m => m.id == n.id) then acc
      else if refIds.contains n.id then acc ++ [n] else acc)
    []
  { id := childId, nodes := childNodes, connections := inherited
    parent1 := some p1.id, parent2 := some p2.id, fitness := none }

/-- Modelled from the spec: weight mutation (spec section 4.3), which is
not under src/: per connection, with configured probability the weight is
either perturbed by a small delta or fully reset; the rand stream drives
both the coin flips and the magnitudes. -/
def mutateWeights (rand : ℕ → ℕ) (g : Genome) : Genome :=
  { g with
    connections := g.connections.mapIdx (fun i c =>
      let roll := rand (3 * i) % 10
      if roll < 8 then
        { c with weight := c.weight + (((rand (3 * i + 1) % 21 : ℕ) : ℚ) - 10) / 10 }
      else if roll < 9 then
        { c with weight := (((rand (3 * i + 2) % 41 : ℕ) : ℚ) - 20) / 10 }
      else c) }

/-- Modelled from the spec: the evolve step of the Population Manager
(spec section 4.4), which is not under src/.  Steps, in order: genomes
with null fitness receive the configured default fitness; the completed
generation record, one entry per genome of the pre-evolve population, is
appended to the history; one child per population slot is produced by
crossover of the fittest genome with a rand-chosen mate followed by
weight mutation (structural mutations are probabilistic and are modelled
as not firing on this run, which leaves the generation and history
bookkeeping unchanged); the generation counter is incremented and the
population replaced by the children, whose ids continue the session
counter. -/
def evolve (rand : ℕ → ℕ) (defaultFitness : ℚ) (s : Session) : Session :=
  let pop := s.population.map
    (fun g => { g with fitness := some (g.fitness.getD defaultFitness) })
  let record : GenerationRecord :=
    { generation := s.generation
      genomes := pop.map (fun g =>
        { genome_id := g.id, parent1 := g.parent1
          parent2 := g.parent2, fitness := g.fitness }) }
  let children :=
    match bestGenome pop with
    | none => []
    | some best =>
        (List.range pop.length).map (fun k =>
          let mate := pop.getD (rand (3 * k) % pop.length) best
          mutateWeights (fun i => rand (3 * k + 2 * i + 1))
            (crossover (fun i => rand (3 * k + 2 * i + 2))
              (s.next_genome_id + k) best mate))
  { s with
    population := children
    generation := s.generation + 1
    history := s.history ++ [record]
    next_genome_id := s.next_genome_id + pop.length }

/-- Modelled from the spec: the minimal starting genome (spec section
4.4): four input nodes (x, y, z, d) and six output nodes (vx, vy, vz, r,
g, b), inputs connected directly to outputs, no hidden nodes; the initial
weights come from the rand stream. -/
def minimalGenome (rand : ℕ → ℕ) (genomeId : ℕ) : Genome :=
  let inputNodes := (List.range 4).map (fun i =>
    { id := i, type := NodeType.input
      activation := Activation.identity, bias := 0 : Node })
  let outputNodes := (List.range 6).map (fun o =>
    { id := 4 + o, type := NodeType.output
      activation := Activation.identity, bias := 0 : Node })
  let conns := (List.range 4).flatMap (fun i =>
    (List.range 6).map (fun o =>
      { innovation_id := 6 * i + o, source := i, target := 4 + o
        weight := (((rand (24 * genomeId + 6 * i + o) % 41 : ℕ) : ℚ) - 20) / 10
        enabled := true : Connection }))
  { id := genomeId, nodes := inputNodes ++ outputNodes, connections := conns
    parent1 := none, parent2 := none, fitness := none }

/-- Modelled from the spec: create session (spec sections 4.5 and 6),
which is not under src/: allocates a fresh session with a freshly seeded
population of minimal genomes; the generation counter starts at 0, the
history is empty, and the session-local counters start past the seeded
ids. -/
def initializeSession (numDrones popSize : ℕ) (rand : ℕ → ℕ) : Session :=
  { num_drones := numDrones
    population := (List.range popSize).map (fun k => minimalGenome rand k)
    generation := 0
    history := []
    innovation_registry := (List.range 4).flatMap (fun i =>
      (List.range 6).map (fun o => ((i, 4 + o), 6 * i + o)))
    next_node_id := 10
    next_innovation_id := 24
    next_genome_id := popSize }

/-! Theorems. -/

theorem jsToInt32_of_bounds (n : ℤ) (h0 : 0 ≤ n) (h1 : n < 2 ^ 31) :
    jsToInt32 n = n := by
  unfold jsToInt32
  omega

theorem natCast_lor (m n : ℕ) : Int.lor (m : ℤ) (n : ℤ) = ((m ||| n : ℕ) : ℤ) := rfl

theorem lor_eq_add_of_lt (a c k : ℕ) (hc : c < 2 ^ k) :
    (2 ^ k * a) ||| c = 2 ^ k * a + c := (Nat.mul_add_lt_is_or hc a).symm

theorem jsToInt32_natCast (n : ℕ) (h : n < 2 ^ 31) : jsToInt32 (n : ℤ) = (n : ℤ) := by
  apply jsToInt32_of_bounds
  · exact Int.natCast_nonneg n
  · push_cast; omega

/-- Under 8-bit bounds the JS bit tricks compute the place-value sum. -/
theorem rgbToHex_eq_sum (r g b : ℤ)
    (hr0 : 0 ≤ r) (hr : r ≤ 255) (hg0 : 0 ≤ g) (hg : g ≤ 255)
    (hb0 : 0 ≤ b) (hb : b ≤ 255) :
    rgbToHex r g b = r * 65536 + g * 256 + b := by
  lift r to ℕ using hr0 with rn
  lift g to ℕ using hg0 with gn
  lift b to ℕ using hb0 with bn
  have hrn : rn ≤ 255 := by exact_mod_cast hr
  have hgn : gn ≤ 255 := by exact_mod_cast hg
  have hbn : bn ≤ 255 := by exact_mod_cast hb
  have h1 : jsShl (rn : ℤ) 16 = ((2 ^ 16 * rn : ℕ) : ℤ) := by
    unfold jsShl jsToInt32; push_cast; omega
  have h2 : jsShl (gn : ℤ) 8 = ((2 ^ 8 * gn : ℕ) : ℤ) := by
    unfold jsShl jsToInt32; push_cast; omega
  have hb1 : 2 ^ 8 * gn < 2 ^ 16 := by omega
  have hb2 : bn < 2 ^ 8 := by omega
  have hj1 : jsToInt32 ((2 ^ 16 * rn : ℕ) : ℤ) = ((2 ^ 16 * rn : ℕ) : ℤ) :=
    jsToInt32_natCast (2 ^ 16 * rn) (by omega)
  have hj2 : jsToInt32 ((2 ^ 8 * gn : ℕ) : ℤ) = ((2 ^ 8 * gn : ℕ) : ℤ) :=
    jsToInt32_natCast (2 ^ 8 * gn) (by omega)
  have hj3 : jsToInt32 ((2 ^ 16 * rn + 2 ^ 8 * gn : ℕ) : ℤ) =
      ((2 ^ 16 * rn + 2 ^ 8 * gn : ℕ) : ℤ) :=
    jsToInt32_natCast (2 ^ 16 * rn + 2 ^ 8 * gn) (by omega)
  have hj4 : jsToInt32 ((bn : ℕ) : ℤ) = ((bn : ℕ) : ℤ) :=
    jsToInt32_natCast bn (by omega)
  have hj5 : jsToInt32 ((2 ^ 16 * rn + 2 ^ 8 * gn + bn : ℕ) : ℤ) =
      ((2 ^ 16 * rn + 2 ^ 8 * gn + bn : ℕ) : ℤ) :=
    jsToInt32_natCast (2 ^ 16 * rn + 2 ^ 8 * gn + bn) (by omega)
  have hlor1 : (2 ^ 16 * rn) ||| (2 ^ 8 * gn) = 2 ^ 16 * rn + 2 ^ 8 * gn :=
    lor_eq_add_of_lt rn (2 ^ 8 * gn) 16 hb1
  have hlor2 : (2 ^ 16 * rn + 2 ^ 8 * gn) ||| bn = 2 ^ 16 * rn + 2 ^ 8 * gn + bn := by
    have h := lor_eq_add_of_lt (2 ^ 8 * rn + gn) bn 8 hb2
    have he : 2 ^ 8 * (2 ^ 8 * rn + gn) = 2 ^ 16 * rn + 2 ^ 8 * gn := by ring
    rw [he] at h
    exact h
  unfold rgbToHex jsOr
  rw [h1, h2, hj1, hj2, natCast_lor, hlor1, hj3, hj3, hj4, natCast_lor, hlor2, hj5]
  push_cast
  ring

/-- Claim C9: for all integers r, g, b with 0 ≤ r,g,b ≤ 255, rgbToHex r g b
equals r * 65536 + g * 256 + b, lies in the range [0, 0xFFFFFF], and the
mapping is injective: the components are uniquely recoverable. -/
theorem claim_C9_rgbToHex (r g b : ℤ)
    (hr0 : 0 ≤ r) (hr : r ≤ 255) (hg0 : 0 ≤ g) (hg : g ≤ 255)
    (hb0 : 0 ≤ b) (hb : b ≤ 255) :
    rgbToHex r g b = r * 65536 + g * 256 + b ∧
    0 ≤ rgbToHex r g b ∧ rgbToHex r g b ≤ 0xFFFFFF ∧
    ∀ r2 g2 b2 : ℤ, 0 ≤ r2 → r2 ≤ 255 → 0 ≤ g2 → g2 ≤ 255 → 0 ≤ b2 → b2 ≤ 255 →
      rgbToHex r g b = rgbToHex r2 g2 b2 → r = r2 ∧ g = g2 ∧ b = b2 := by
  have h := rgbToHex_eq_sum r g b hr0 hr hg0 hg hb0 hb
  refine ⟨h, by omega, by omega, ?_⟩
  intro r2 g2 b2 hr20 hr2 hg20 hg2 hb20 hb2 heq
  have h2 := rgbToHex_eq_sum r2 g2 b2 hr20 hr2 hg20 hg2 hb20 hb2
  rw [h, h2] at heq
  omega

/-- Witness for claim C9 at r = 18, g = 52, b = 86. -/
theorem claim_C9_rgbToHex_witness :
    rgbToHex 18 52 86 = 18 * 65536 + 52 * 256 + 86 ∧
    0 ≤ rgbToHex 18 52 86 ∧ rgbToHex 18 52 86 ≤ 0xFFFFFF ∧
    ∀ r2 g2 b2 : ℤ, 0 ≤ r2 → r2 ≤ 255 → 0 ≤ g2 → g2 ≤ 255 → 0 ≤ b2 → b2 ≤ 255 →
      rgbToHex 18 52 86 = rgbToHex r2 g2 b2 → (18 : ℤ) = r2 ∧ (52 : ℤ) = g2 ∧ (86 : ℤ) = b2 :=
  claim_C9_rgbToHex 18 52 86 (by decide) (by decide) (by decide) (by decide)
    (by decide) (by decide)

/-- Claim C7: for every animation with at least one frame and every
non-negative elapsed time, the playback frame index equals
floor(elapsed / FRAME_DURATION) mod numFrames with FRAME_DURATION =
1000 / FPS milliseconds, and the index is strictly below the frame count,
so playback wraps around. -/
theorem claim_C7_frame_index (elapsed numFrames : ℕ) (h : 0 < numFrames) :
    currentFrameIndex elapsed numFrames =
      Nat.floor ((elapsed : ℚ) / (1000 / (FPS : ℚ))) % numFrames ∧
    currentFrameIndex elapsed numFrames < numFrames :=
  ⟨rfl, Nat.mod_lt _ h⟩

/-- Witness for claim C7 at elapsed = 12345 ms with 75 frames. -/
theorem claim_C7_frame_index_witness :
    0 < 75 ∧
    (currentFrameIndex 12345 75 =
        Nat.floor ((12345 : ℚ) / (1000 / (FPS : ℚ))) % 75 ∧
      currentFrameIndex 12345 75 < 75) :=
  ⟨by decide, claim_C7_frame_index 12345 75 (by decide)⟩

/-- Claim C8: in both the grid scene and the modal scene the renderer maps
a drone record (x, y, z) to the scene coordinates (x, z, y), swapping the
y and z axes, and the same mapping is applied identically at initial
placement and at every per-frame position update. -/
theorem claim_C8_axis_swap (d : DroneRecord) (m : DroneMesh) :
    ((createSceneInitMesh d).posX = d.x ∧ (createSceneInitMesh d).posY = d.z ∧
      (createSceneInitMesh d).posZ = d.y) ∧
    ((createSceneUpdateMesh m d).posX = d.x ∧ (createSceneUpdateMesh m d).posY = d.z ∧
      (createSceneUpdateMesh m d).posZ = d.y) ∧
    ((loadModalInitMesh d).posX = d.x ∧ (loadModalInitMesh d).posY = d.z ∧
      (loadModalInitMesh d).posZ = d.y) ∧
    ((loadModalUpdateMesh m d).posX = d.x ∧ (loadModalUpdateMesh m d).posY = d.z ∧
      (loadModalUpdateMesh m d).posZ = d.y) := by
  obtain ⟨x, y, z, r, g, b⟩ := d
  cases r <;> cases g <;> cases b <;>
    simp [createSceneInitMesh, createSceneUpdateMesh, loadModalInitMesh,
      loadModalUpdateMesh]

/-- Claim C3: the color fields r, g, b are optional per drone: an absent
channel is replaced by the fixed per-scene default at initial placement
(grid: 127, 255, 127; modal: 127, 127, 255), per-frame color and emissive
updates are skipped whenever any of r, g, b is undefined, and the drone
position is still rendered normally in every case. -/
theorem claim_C3_optional_colors (d : DroneRecord) (m : DroneMesh)
    (h : d.r = none ∨ d.g = none ∨ d.b = none) :
    ((createSceneUpdateMesh m d).color = m.color ∧
      (createSceneUpdateMesh m d).emissive = m.emissive ∧
      (createSceneUpdateMesh m d).posX = d.x ∧
      (createSceneUpdateMesh m d).posY = d.z ∧
      (createSceneUpdateMesh m d).posZ = d.y) ∧
    ((loadModalUpdateMesh m d).color = m.color ∧
      (loadModalUpdateMesh m d).emissive = m.emissive ∧
      (loadModalUpdateMesh m d).posX = d.x ∧
      (loadModalUpdateMesh m d).posY = d.z ∧
      (loadModalUpdateMesh m d).posZ = d.y) ∧
    ((createSceneInitMesh d).color =
        rgbToHex (d.r.getD 127) (d.g.getD 255) (d.b.getD 127) ∧
      (loadModalInitMesh d).color =
        rgbToHex (d.r.getD 127) (d.g.getD 127) (d.b.getD 255)) ∧
    (d.r = none → d.g = none → d.b = none →
      (createSceneInitMesh d).color = rgbToHex 127 255 127 ∧
      (loadModalInitMesh d).color = rgbToHex 127 127 255) ∧
    ((createSceneInitMesh d).posX = d.x ∧ (createSceneInitMesh d).posY = d.z ∧
      (createSceneInitMesh d).posZ = d.y ∧
      (loadModalInitMesh d).posX = d.x ∧ (loadModalInitMesh d).posY = d.z ∧
      (loadModalInitMesh d).posZ = d.y) := by
  obtain ⟨x, y, z, r, g, b⟩ := d
  cases r <;> cases g <;> cases b <;>
    simp_all [createSceneUpdateMesh, loadModalUpdateMesh, createSceneInitMesh,
      loadModalInitMesh]

/-- Witness for claim C3: a drone record with all color channels absent. -/
theorem claim_C3_optional_colors_witness :
    ((createSceneUpdateMesh ⟨9, 9, 9, 5, 6⟩ ⟨0, 1, 2, none, none, none⟩).color = 5 ∧
      (createSceneUpdateMesh ⟨9, 9, 9, 5, 6⟩ ⟨0, 1, 2, none, none, none⟩).emissive = 6 ∧
      (createSceneUpdateMesh ⟨9, 9, 9, 5, 6⟩ ⟨0, 1, 2, none, none, none⟩).posX = 0 ∧
      (createSceneUpdateMesh ⟨9, 9, 9, 5, 6⟩ ⟨0, 1, 2, none, none, none⟩).posY = 2 ∧
      (createSceneUpdateMesh ⟨9, 9, 9, 5, 6⟩ ⟨0, 1, 2, none, none, none⟩).posZ = 1) ∧
    ((loadModalUpdateMesh ⟨9, 9, 9, 5, 6⟩ ⟨0, 1, 2, none, none, none⟩).color = 5 ∧
      (loadModalUpdateMesh ⟨9, 9, 9, 5, 6⟩ ⟨0, 1, 2, none, none, none⟩).emissive = 6 ∧
      (loadModalUpdateMesh ⟨9, 9, 9, 5, 6⟩ ⟨0, 1, 2, none, none, none⟩).posX = 0 ∧
      (loadModalUpdateMesh ⟨9, 9, 9, 5, 6⟩ ⟨0, 1, 2, none, none, none⟩).posY = 2 ∧
      (loadModalUpdateMesh ⟨9, 9, 9, 5, 6⟩ ⟨0, 1, 2, none, none, none⟩).posZ = 1) ∧
    ((createSceneInitMesh ⟨0, 1, 2, none, none, none⟩).color = rgbToHex 127 255 127 ∧
      (loadModalInitMesh ⟨0, 1, 2, none, none, none⟩).color = rgbToHex 127 127 255) := by
  have h := claim_C3_optional_colors ⟨0, 1, 2, none, none, none⟩ ⟨9, 9, 9, 5, 6⟩
    (Or.inl rfl)
  exact ⟨h.1, h.2.1, h.2.2.2.1 rfl rfl rfl⟩

/-- Claim C10: after every completed toggleSelection call and after every
completed evolve call the disabled flag of the evolve button equals the
test that the selected set is empty, so the button is enabled exactly when
at least one grid cell is selected; a successful evolve empties the
selected set. -/
theorem claim_C10_evolve_button (st : UIState) (index : ℕ) (success : Bool) :
    ((toggleSelection index st).evolveDisabled =
        decide ((toggleSelection index st).selectedIndices.card = 0)) ∧
    ((toggleSelection index st).evolveDisabled = false ↔
        (toggleSelection index st).selectedIndices.Nonempty) ∧
    ((evolveClick success st).evolveDisabled =
        decide ((evolveClick success st).selectedIndices.card = 0)) ∧
    ((evolveClick success st).evolveDisabled = false ↔
        (evolveClick success st).selectedIndices.Nonempty) ∧
    (success = true → (evolveClick success st).selectedIndices = ∅) := by
  have key : ∀ u : UIState,
      ((updateEvolveButton u).evolveDisabled =
        decide ((updateEvolveButton u).selectedIndices.card = 0)) ∧
      ((updateEvolveButton u).evolveDisabled = false ↔
        (updateEvolveButton u).selectedIndices.Nonempty) := by
    intro u
    refine ⟨rfl, ?_⟩
    simp [updateEvolveButton, Finset.card_eq_zero, Finset.nonempty_iff_ne_empty]
  refine ⟨(key _).1, (key _).2, (key _).1, (key _).2, ?_⟩
  intro hs
  subst hs
  simp [evolveClick, updateEvolveButton]

/-- Witness for claim C10: a successful evolve from a one-cell selection
clears the selection and disables the button. -/
theorem claim_C10_evolve_button_witness :
    (evolveClick true ⟨{3}, false⟩).selectedIndices = ∅ ∧
    (evolveClick true ⟨{3}, false⟩).evolveDisabled =
      decide ((evolveClick true ⟨{3}, false⟩).selectedIndices.card = 0) :=
  ⟨(claim_C10_evolve_button ⟨{3}, false⟩ 0 true).2.2.2.2 rfl,
   (claim_C10_evolve_button ⟨{3}, false⟩ 0 true).2.2.1⟩

/-- Claim C4: the create-session operation has no failure condition: the
client stores the returned session id unconditionally, its behavior does
not depend on the response ok flag or status, and a newly created session
starts at generation 0. -/
theorem claim_C4_create_session (resp : Response InitData) (prev : Option String) :
    (initializeEvolution resp prev).1 = some resp.payload.session_id ∧
    (∀ ok2 : Bool, ∀ status2 : ℕ,
      initializeEvolution ⟨ok2, status2, resp.payload⟩ prev =
        initializeEvolution resp prev) ∧
    (∀ numDrones popSize : ℕ, ∀ rand : ℕ → ℕ,
      (initializeSession numDrones popSize rand).generation = 0) :=
  ⟨rfl, fun _ _ => rfl, fun _ _ _ => rfl⟩

/-- Claim C5: every session-scoped API helper throws without issuing any
request when no session id is held, and otherwise issues exactly one
request (never a retry) and throws an error that surfaces the failure when
the server responds with a non-ok status.  The first pair component counts
the requests issued. -/
theorem claim_C5_session_scoped_errors (α : Type) (s : String)
    (resp : Response α) (genomeId : ℕ) (duration fitness : ℚ)
    (hok : resp.ok = false) :
    (getGenomes none resp = (0, Except.error ApiError.sessionNotInitialized) ∧
      getGenomes (some s) resp =
        (1, Except.error (ApiError.requestFailed resp.status))) ∧
    (getPattern none genomeId duration resp =
        (0, Except.error ApiError.sessionNotInitialized) ∧
      getPattern (some s) genomeId duration resp =
        (1, Except.error (ApiError.requestFailed resp.status))) ∧
    (assignFitness none genomeId fitness resp =
        (0, Except.error ApiError.sessionNotInitialized) ∧
      assignFitness (some s) genomeId fitness resp =
        (1, Except.error (ApiError.fitnessFailed genomeId))) ∧
    (evolveGeneration none resp = (0, Except.error ApiError.sessionNotInitialized) ∧
      evolveGeneration (some s) resp = (1, Except.error ApiError.evolveFailed)) ∧
    (getCPPNStructure none genomeId resp =
        (0, Except.error ApiError.sessionNotInitialized) ∧
      getCPPNStructure (some s) genomeId resp =
        (1, Except.error (ApiError.requestFailed resp.status))) ∧
    (getEvolutionHistory none resp =
        (0, Except.error ApiError.sessionNotInitialized) ∧
      getEvolutionHistory (some s) resp =
        (1, Except.error (ApiError.requestFailed resp.status))) ∧
    (checkConstraints none resp = (0, Except.error ApiError.sessionNotInitialized) ∧
      checkConstraints (some s) resp =
        (1, Except.error (ApiError.requestFailed resp.status))) := by
  obtain ⟨ok, status, payload⟩ := resp
  cases ok
  · exact ⟨⟨rfl, rfl⟩, ⟨rfl, rfl⟩, ⟨rfl, rfl⟩, ⟨rfl, rfl⟩, ⟨rfl, rfl⟩,
      ⟨rfl, rfl⟩, ⟨rfl, rfl⟩⟩
  · simp at hok

/-- Witness for claim C5 at a concrete 404 response. -/
theorem claim_C5_session_scoped_errors_witness :
    getGenomes none (⟨false, 404, (0 : ℕ)⟩ : Response ℕ) =
        (0, Except.error ApiError.sessionNotInitialized) ∧
    getGenomes (some "abc") (⟨false, 404, (0 : ℕ)⟩ : Response ℕ) =
        (1, Except.error (ApiError.requestFailed 404)) ∧
    assignFitness (some "abc") 7 1 (⟨false, 404, (0 : ℕ)⟩ : Response ℕ) =
        (1, Except.error (ApiError.fitnessFailed 7)) :=
  ⟨(claim_C5_session_scoped_errors ℕ "abc" ⟨false, 404, 0⟩ 7 3 1 rfl).1.1,
   (claim_C5_session_scoped_errors ℕ "abc" ⟨false, 404, 0⟩ 7 3 1 rfl).1.2,
   (claim_C5_session_scoped_errors ℕ "abc" ⟨false, 404, 0⟩ 7 3 1 rfl).2.2.1.2⟩

/-- Claim C6: when the user triggers evolution the client assigns one
fitness value per genome id of the current generation before issuing the
evolve request: fitness 1.0 for each genome whose grid index is in the
selected set and 0.0 otherwise, and the single evolve request comes last,
after every fitness assignment. -/
theorem claim_C6_fitness_then_evolve (genomeIds : List ℕ) (sel : Finset ℕ) :
    (evolveRequests genomeIds sel).length = genomeIds.length + 1 ∧
    (∀ i g, genomeIds[i]? = some g →
      (evolveRequests genomeIds sel)[i]? =
        some (EvolveStep.fitness g (if i ∈ sel then 1 else 0))) ∧
    (evolveRequests genomeIds sel)[genomeIds.length]? =
      some (EvolveStep.evolveCall 0) := by
  refine ⟨by simp [evolveRequests], ?_, ?_⟩
  · intro i g hg
    have hi : i < genomeIds.length := by
      by_contra hlt
      rw [List.getElem?_eq_none (by omega)] at hg
      exact Option.noConfusion hg
    rw [evolveRequests, List.getElem?_append_left (by simpa using hi)]
    simp [hg]
  · rw [evolveRequests, List.getElem?_append_right (by simp)]
    simp

/-- Claim C6 witness at genome ids [10, 11, 12] with grid cell 1 selected. -/
theorem claim_C6_fitness_then_evolve_witness :
    (evolveRequests [10, 11, 12] {1}).length = 4 ∧
    (evolveRequests [10, 11, 12] {1})[0]? = some (EvolveStep.fitness 10 0) ∧
    (evolveRequests [10, 11, 12] {1})[1]? = some (EvolveStep.fitness 11 1) ∧
    (evolveRequests [10, 11, 12] {1})[3]? = some (EvolveStep.evolveCall 0) := by
  have h := claim_C6_fitness_then_evolve [10, 11, 12] ({1} : Finset ℕ)
  refine ⟨h.1, ?_, ?_, h.2.2⟩
  · have h0 := h.2.1 0 10 rfl
    simpa using h0
  · have h1 := h.2.1 1 11 rfl
    simpa using h1

/-- Claim C1: for every session state, every randomness stream and every
default fitness, one evolve call increments the generation counter by
exactly 1 and appends exactly one Generation Record to the history, and
that record contains exactly one genome entry per genome of the
pre-evolve population. -/
theorem claim_C1_evolve_bookkeeping (rand : ℕ → ℕ) (defaultFitness : ℚ)
    (s : Session) :
    (evolve rand defaultFitness s).generation = s.generation + 1 ∧
    ∃ rec : GenerationRecord,
      (evolve rand defaultFitness s).history = s.history ++ [rec] ∧
      rec.genomes.length = s.population.length := by
  refine ⟨rfl, ⟨_, rfl, ?_⟩⟩
  simp

/-- Claim C2: evaluation of a genome is deterministic and pure: for every
genome and every input two calls yield the identical 6-tuple, and the
output is a function of the CPPN structure (nodes and connections) and
the input alone: genomes with identical structure evaluate identically
regardless of their id, parent and fitness metadata, for every pure
interpretation of the activation functions and the square root. -/
theorem claim_C2_evaluate_deterministic (act : Activation → ℚ → ℚ)
    (sqrt : ℚ → ℚ) (g1 g2 : Genome) (x y z : ℚ)
    (hn : g1.nodes = g2.nodes) (hc : g1.connections = g2.connections) :
    evaluate act sqrt g1 x y z = evaluate act sqrt g1 x y z ∧
    evaluate act sqrt g1 x y z = evaluate act sqrt g2 x y z := by
  refine ⟨rfl, ?_⟩
  unfold evaluate
  rw [hn, hc]

/-- Witness for claim C2: two genomes with the same CPPN structure but
different metadata, evaluated at input (1, 2, 3). -/
theorem claim_C2_evaluate_deterministic_witness :
    evaluate (fun _ q => q) (fun q => q)
        ⟨0, [⟨0, NodeType.input, Activation.identity, 0⟩,
             ⟨4, NodeType.output, Activation.identity, 1⟩],
         [⟨0, 0, 4, 2, true⟩], none, none, none⟩ 1 2 3 =
      evaluate (fun _ q => q) (fun q => q)
        ⟨7, [⟨0, NodeType.input, Activation.identity, 0⟩,
             ⟨4, NodeType.output, Activation.identity, 1⟩],
         [⟨0, 0, 4, 2, true⟩], some 1, some 2, some 1⟩ 1 2 3 :=
  (claim_C2_evaluate_deterministic (fun _ q => q) (fun q => q) _ _ 1 2 3 rfl rfl).2
